import Mathlib

/-!
Shallow embedding of the AI tool-orchestration core of QwikNotes.

The definitions below are translated from the repository sources:
* `callMCPTool` and `askAIAboutNotesAction` from the current notes action
  (src/unnamed/part_004, imported by `AskAIButton` as `@/actions/notes-mcp`);
* `callMCPToolLegacy` from the older `src/src/actions/notes-mcp.ts`, whose
  remote branch contains the worker-stub degradation path;
* the Note store operations model the prisma calls those functions make.

External collaborators (the OpenAI completion endpoint, the MCP worker
process, the Notion API and the prisma database id/timestamp generator)
are modelled as explicit oracles passed in, and every outbound call to the
worker or to Notion is recorded in a call log so that "zero network calls"
style properties are expressible.
-/

/-- A note row as selected by the action:
`select { id, text, createdAt, updatedAt }` plus the `authorId` used in the
`where` clauses.  Timestamps are carried as their ISO-string rendering,
which is the only form the code ever uses (`.toISOString()`). -/
structure Note where
  id : String
  authorId : String
  text : String
  createdAtISO : String
  updatedAtISO : String
deriving Repr, DecidableEq

/-- The note table. -/
abbrev Store := List Note

/-- `prisma.note.findFirst({ where: { id, authorId } })`. -/
def noteFindFirst (store : Store) (noteId userId : String) : Option Note :=
  store.find? (fun n => n.id == noteId && n.authorId == userId)

/-- `prisma.note.update({ where: { id }, data: { text } })` — keyed on the
id alone (ownership was established by the preceding `findFirst`). -/
def noteUpdateText (store : Store) (noteId newText : String) : Store :=
  store.map (fun n => if n.id == noteId then { n with text := newText } else n)

/-- Dispatch-visible database state.  `gen` models prisma's id/timestamp
generator: fresh ids are drawn from a counter. -/
structure DispatchState where
  store : Store
  gen : Nat
deriving Repr, DecidableEq

/-- Fresh id for `prisma.note.create` (collaborator-generated cuid). -/
def freshNoteId (d : DispatchState) : String :=
  "note-" ++ toString d.gen

/-- `prisma.note.create({ data: { text, authorId } })`. -/
def noteCreate (d : DispatchState) (userId text : String) : Note × DispatchState :=
  let n : Note :=
    { id := freshNoteId d, authorId := userId, text := text
      createdAtISO := "t" ++ toString d.gen, updatedAtISO := "t" ++ toString d.gen }
  (n, { store := d.store ++ [n], gen := d.gen + 1 })

/-- The argument object the model supplies for a tool call, after
`JSON.parse(toolCall.function.arguments)`.  Absent JS properties are
`none`. -/
structure ToolArgs where
  content : Option String := none
  title : Option String := none
  noteId : Option String := none
  newContent : Option String := none
  mode : Option String := none
  text : Option String := none
  analysisType : Option String := none
  query : Option String := none
  location : Option String := none
  pageId : Option String := none
  databaseId : Option String := none
deriving Repr, DecidableEq

instance {ε α : Type} [DecidableEq ε] [DecidableEq α] : DecidableEq (Except ε α) := fun x y =>
  match x, y with
  | .ok a, .ok b => if h : a = b then isTrue (by rw [h]) else isFalse (by simp [h])
  | .error a, .error b => if h : a = b then isTrue (by rw [h]) else isFalse (by simp [h])
  | .ok _, .error _ => isFalse (by simp)
  | .error _, .ok _ => isFalse (by simp)

/-- JS `String.prototype.trim`: strip whitespace from both ends.  Stated
on the character list (Lean's own `String.trim` is defined by
well-founded recursion on byte positions, which blocks kernel
evaluation). -/
def jsTrim (s : String) : String :=
  ⟨((s.data.dropWhile Char.isWhitespace).reverse.dropWhile Char.isWhitespace).reverse⟩

/-- JS truthiness of an optional string: `undefined` and `""` are falsy. -/
def jsTruthy (o : Option String) : Bool :=
  o.getD "" != ""

/-- JS `String(x)` on an optional string: `String(undefined) = "undefined"`. -/
def jsStringOpt (o : Option String) : String :=
  o.getD "undefined"

/-- JS `x || d` on an optional string (`undefined` and `""` fall back). -/
def jsOrStr (o : Option String) (d : String) : String :=
  if o.getD "" == "" then d else o.getD ""

/-- The wire form of a note sent to the worker for `analyze_notes`
(`{ id, text, createdAt: toISOString(), updatedAt: toISOString() }`). -/
structure NoteWire where
  id : String
  text : String
  createdAt : String
  updatedAt : String
deriving Repr, DecidableEq

def noteToWire (n : Note) : NoteWire :=
  { id := n.id, text := n.text, createdAt := n.createdAtISO, updatedAt := n.updatedAtISO }

/-- What the dispatcher forwards to the MCP worker after argument
enrichment: either the model's arguments unchanged, the rebuilt
`analyze_notes` arguments, or the substituted `extract_entities` text. -/
inductive MCPForward
  | plain (args : ToolArgs)
  | analyzeEnriched (notes : List NoteWire) (analysisType : Option String)
  | entityText (text : String)
deriving Repr, DecidableEq

/-- A Notion API operation together with the credential it was issued
with (the collaborator adapter calls of src/lib/notion-tools.ts). -/
inductive NotionOp
  | search (query token : String)
  | getPage (pageId token : String)
  | createPage (databaseId title content token : String)
  | appendPage (pageId content token : String)
  | listDatabases (token : String)
deriving Repr, DecidableEq

/-- One outbound network call made by a dispatch. -/
inductive ExtCall
  | worker (name : String) (args : MCPForward)
  | notion (op : NotionOp)
deriving Repr, DecidableEq

/-- A successful dispatch result (the object `callMCPTool` returns).
Worker and Notion payloads are opaque to the dispatcher and carried as
the oracle's string. -/
inductive Payload
  | createSuccess (noteId : String)
  | updateSuccess (noteId mode : String)
  | worker (result : String)
  | notion (result : String)
  | legacyStub (error message : String)
deriving Repr, DecidableEq

/-- Oracles for the external collaborators reached from a dispatch. -/
structure ToolEnv where
  workerCall : String → MCPForward → Except String String
  notionCall : NotionOp → Except String String

/-- `const mcpServerTools = [...]` in `callMCPTool`. -/
def mcpServerTools : List String :=
  ["web_search", "get_weather", "extract_entities", "analyze_notes"]

/-- The argument-enrichment step of `callMCPTool` (part_004 lines
357-378): `analyze_notes` always gets the full note corpus rebuilt from
scratch; `extract_entities` with falsy `args.text` gets the concatenated
corpus; everything else passes through.  (A JS empty array is truthy, so
the `notes &&` guard is exactly `notes ≠ undefined`.) -/
def enrichArgs (toolName : String) (args : ToolArgs) (notes : Option (List Note)) : MCPForward :=
  if toolName == "analyze_notes" && notes.isSome then
    .analyzeEnriched ((notes.getD []).map noteToWire) args.analysisType
  else if toolName == "extract_entities" && !(jsTruthy args.text) && notes.isSome then
    .entityText (String.intercalate "\n\n" ((notes.getD []).map (·.text)))
  else
    .plain args

/-- The `update_note` text computation (part_004 lines 317-326): replace
discards the old text; append inserts a `"\n\n"` separator only when the
existing text is non-empty. -/
def updatedNoteText (mode existingText newContent : String) : String :=
  if mode == "replace" then newContent
  else existingText ++ (if existingText != "" then "\n\n" else "") ++ newContent

/-- Shallow embedding of `callMCPTool` from the current notes action
(src/unnamed/part_004 lines 249-434).  A thrown JS error is an
`Except.error` carrying the message; the returned triple is
(result, database state, outbound network calls made). -/
def callMCPTool (env : ToolEnv) (toolName : String) (args : ToolArgs)
    (notes : Option (List Note)) (userId : Option String)
    (notionAccessToken : Option String) (st : DispatchState) :
    Except String Payload × DispatchState × List ExtCall :=
  if toolName == "create_note" then
    if !(jsTruthy userId) then
      (.error "User ID is required to create a note", st, [])
    else
      let content := args.content.getD ""
      if jsTrim content == "" then
        (.error "Failed to create note: Cannot create a note with empty content", st, [])
      else
        let (newNote, st') := noteCreate st (userId.getD "") content
        (.ok (.createSuccess newNote.id), st', [])
  else if toolName == "update_note" then
    if !(jsTruthy userId) then
      (.error "User ID is required to update a note", st, [])
    else
      let noteId := jsStringOpt args.noteId
      let mode := jsOrStr args.mode "append"
      let newContent := args.newContent.getD ""
      if newContent == "" then
        (.error "Failed to update note: No content provided to update the note", st, [])
      else
        match noteFindFirst st.store noteId (userId.getD "") with
        | none =>
            (.error "Failed to update note: Note not found or you don't have permission to update it",
             st, [])
        | some currentNote =>
            let newText := updatedNoteText mode currentNote.text newContent
            (.ok (.updateSuccess noteId mode),
             { st with store := noteUpdateText st.store noteId newText }, [])
  else if mcpServerTools.contains toolName then
    let fwd := enrichArgs toolName args notes
    match env.workerCall toolName fwd with
    | .ok r => (.ok (.worker r), st, [.worker toolName fwd])
    | .error e =>
        (.error ("MCP tool " ++ toolName ++ " failed: " ++ e), st, [.worker toolName fwd])
  else if toolName == "search_notion" then
    if !(jsTruthy notionAccessToken) then
      (.error ("MCP tool " ++ toolName ++
        " failed: Notion is not connected. Please connect your Notion workspace in settings."),
       st, [])
    else
      let op := NotionOp.search (jsStringOpt args.query) (notionAccessToken.getD "")
      match env.notionCall op with
      | .ok r => (.ok (.notion r), st, [.notion op])
      | .error e => (.error ("MCP tool " ++ toolName ++ " failed: " ++ e), st, [.notion op])
  else if toolName == "get_notion_page" then
    if !(jsTruthy notionAccessToken) then
      (.error ("MCP tool " ++ toolName ++
        " failed: Notion is not connected. Please connect your Notion workspace in settings."),
       st, [])
    else
      let op := NotionOp.getPage (jsStringOpt args.pageId) (notionAccessToken.getD "")
      match env.notionCall op with
      | .ok r => (.ok (.notion r), st, [.notion op])
      | .error e => (.error ("MCP tool " ++ toolName ++ " failed: " ++ e), st, [.notion op])
  else if toolName == "create_notion_page" then
    if !(jsTruthy notionAccessToken) then
      (.error ("MCP tool " ++ toolName ++
        " failed: Notion is not connected. Please connect your Notion workspace in settings."),
       st, [])
    else
      let op := NotionOp.createPage (jsStringOpt args.databaseId) (jsStringOpt args.title)
        (jsStringOpt args.content) (notionAccessToken.getD "")
      match env.notionCall op with
      | .ok r => (.ok (.notion r), st, [.notion op])
      | .error e => (.error ("MCP tool " ++ toolName ++ " failed: " ++ e), st, [.notion op])
  else if toolName == "append_to_notion" then
    if !(jsTruthy notionAccessToken) then
      (.error ("MCP tool " ++ toolName ++
        " failed: Notion is not connected. Please connect your Notion workspace in settings."),
       st, [])
    else
      let op := NotionOp.appendPage (jsStringOpt args.pageId) (jsStringOpt args.content)
        (notionAccessToken.getD "")
      match env.notionCall op with
      | .ok r => (.ok (.notion r), st, [.notion op])
      | .error e => (.error ("MCP tool " ++ toolName ++ " failed: " ++ e), st, [.notion op])
  else if toolName == "list_notion_databases" then
    if !(jsTruthy notionAccessToken) then
      (.error ("MCP tool " ++ toolName ++
        " failed: Notion is not connected. Please connect your Notion workspace in settings."),
       st, [])
    else
      let op := NotionOp.listDatabases (notionAccessToken.getD "")
      match env.notionCall op with
      | .ok r => (.ok (.notion r), st, [.notion op])
      | .error e => (.error ("MCP tool " ++ toolName ++ " failed: " ++ e), st, [.notion op])
  else
    (.error ("MCP tool " ++ toolName ++ " failed: Unknown MCP tool: " ++ toolName), st, [])

/-- One tool-call request in an assistant message, after
`JSON.parse(toolCall.function.arguments)`. -/
structure ToolCall where
  id : String
  name : String
  args : ToolArgs
deriving Repr, DecidableEq

/-- `completion.choices[0].message`: optional text content plus the list
of requested tool calls (JS `undefined` tool_calls is the empty list, as
the loop guard also requires `.length > 0`). -/
structure AssistantMsg where
  content : Option String
  tool_calls : List ToolCall
deriving Repr, DecidableEq

/-- Content of a `role: "tool"` message: either the stringified tool
result or the stringified `{ error }` object built in the catch. -/
inductive ToolContent
  | result (p : Payload)
  | failure (message : String)
deriving Repr, DecidableEq

/-- A conversation turn as pushed onto `messages`. -/
inductive Msg
  | developer (content : String)
  | user (content : String)
  | assistant (content : String)
  | assistantToolCalls (m : AssistantMsg)
  | tool (tool_call_id : String) (content : ToolContent)
deriving Repr, DecidableEq

/-- Mutable state of the orchestration loop, plus instrumentation
(`calls` logs outbound network calls, `completions` counts invocations of
the completion collaborator). -/
structure LoopState where
  messages : List Msg
  iterations : Nat
  noteCreated : Bool
  noteUpdated : Bool
  dispatch : DispatchState
  calls : List ExtCall
  completions : Nat
deriving Repr, DecidableEq

/-- `const maxIterations = 3`. -/
def maxIterations : Nat := 3

/-- The body of the per-tool-call loop (part_004 lines 623-657): the
side-effect flags are set when the tool is named, before the dispatch is
attempted; the dispatch itself runs inside try/catch, its outcome pushed
as a tool message either way. -/
def processOneCall (env : ToolEnv) (notes : Option (List Note))
    (userId notionAccessToken : Option String) (st : LoopState) (tc : ToolCall) :
    LoopState :=
  let st :=
    { st with
      noteCreated := st.noteCreated || tc.name == "create_note"
      noteUpdated := st.noteUpdated || tc.name == "update_note" }
  match callMCPTool env tc.name tc.args notes userId notionAccessToken st.dispatch with
  | (.ok p, d, log) =>
      { st with
        messages := st.messages ++ [.tool tc.id (.result p)]
        dispatch := d, calls := st.calls ++ log }
  | (.error e, d, log) =>
      { st with
        messages := st.messages ++ [.tool tc.id (.failure e)]
        dispatch := d, calls := st.calls ++ log }

/-- `for (const toolCall of assistantMessage.tool_calls) { ... }`. -/
def processToolCalls (env : ToolEnv) (notes : Option (List Note))
    (userId notionAccessToken : Option String) (batch : List ToolCall)
    (st : LoopState) : LoopState :=
  batch.foldl (processOneCall env notes userId notionAccessToken) st

/-- The completion collaborator: invocation index and current message
history to `choices[0].message`, or a thrown error. -/
abbrev CompleteFn := Nat → List Msg → Except String AssistantMsg

/-- The while loop of `askAIAboutNotesAction` (part_004 lines 611-668).
The `fuel` argument drives structural recursion and on every reachable
call equals `maxIterations - st.iterations`, so the fuel-exhaustion
branch never fires; the loop guard is the code's own condition.  An
`Except.error` is a thrown completion error, carrying the state at the
throw for instrumentation. -/
def loopGo (env : ToolEnv) (complete : CompleteFn) (notes : Option (List Note))
    (userId notionAccessToken : Option String) :
    Nat → AssistantMsg → LoopState → Except (String × LoopState) (AssistantMsg × LoopState)
  | fuel, msg, st =>
    if msg.tool_calls != [] && st.iterations < maxIterations then
      match fuel with
      | 0 => .ok (msg, st)
      | fuel + 1 =>
        let st1 :=
          { st with
            iterations := st.iterations + 1
            messages := st.messages ++ [.assistantToolCalls msg] }
        let st2 := processToolCalls env notes userId notionAccessToken msg.tool_calls st1
        match complete st2.completions st2.messages with
        | .error e => .error (e, { st2 with completions := st2.completions + 1 })
        | .ok msg' =>
            loopGo env complete notes userId notionAccessToken fuel msg'
              { st2 with completions := st2.completions + 1 }
    else
      .ok (msg, st)

/-- `toISOString().split("T")[0]`: the segment before the first `T`
(stated structurally so that it evaluates in the kernel). -/
def isoDate (s : String) : String :=
  ⟨s.data.takeWhile (fun c => c != 'T')⟩

/-- `formattedNotes` entry (part_004 lines 473-483). -/
def formatNote (n : Note) : String :=
  "Note ID: " ++ n.id ++ "\n" ++
  "Text: " ++ n.text ++ "\n" ++
  "Created: " ++ isoDate n.createdAtISO ++ "\n" ++
  "Updated: " ++ isoDate n.updatedAtISO

/-- The developer system prompt, as a function of the data spliced into
the template literal (the inert instruction prose is represented by its
data-dependent skeleton). -/
def developerPrompt (notes : List Note) (currentNote : Option Note) : String :=
  "QwikNotes assistant instructions\n" ++
  (match currentNote with
   | some n => "CURRENT NOTE\nNote ID: " ++ n.id ++ "\nText: " ++ n.text ++ "\n"
   | none => "") ++
  "User's notes:\n" ++
  String.intercalate "\n\n" (notes.map formatNote)

/-- The conversation-history splice (part_004 lines 585-590). -/
def historyMessages (newQuestions responses : List String) : List Msg :=
  (List.range newQuestions.length).flatMap (fun i =>
    [Msg.user (newQuestions.getD i "")] ++
    (if i < responses.length then [Msg.assistant (responses.getD i "")] else []))

/-- The initial `messages` array: developer prompt then history. -/
def initialMessages (notes : List Note) (currentNoteId : Option String)
    (newQuestions responses : List String) : List Msg :=
  let currentNote := currentNoteId.bind (fun cid => notes.find? (fun n => n.id == cid))
  [Msg.developer (developerPrompt notes currentNote)] ++ historyMessages newQuestions responses

/-- Loop state at entry to the while loop: one completion already made,
flags false, iteration counter zero. -/
def initLoopState (msgs : List Msg) (st0 : DispatchState) : LoopState :=
  { messages := msgs, iterations := 0, noteCreated := false, noteUpdated := false
    dispatch := st0, calls := [], completions := 1 }

/-- `"I'm sorry, I couldn't generate a response."` fallback. -/
def fallbackResponse : String := "I'm sorry, I couldn't generate a response."

/-- The fixed HTML error fragment produced by the outer catch. -/
def errorHtml (m : String) : String :=
  "<p class=\"text-red-500\">Error: " ++ m ++ "</p>"

/-- What `askAIAboutNotesAction` returns: either the bare early-return
string (no notes) or the stringified `{ response, noteCreated,
noteUpdated }` envelope. -/
inductive RunOutput
  | noNotes (text : String)
  | result (response : String) (noteCreated noteUpdated : Bool)
deriving Repr, DecidableEq

/-- A run's observable outcome plus instrumentation. -/
structure RunResult where
  output : RunOutput
  iterations : Nat
  completions : Nat
  store : Store
  calls : List ExtCall
deriving Repr, DecidableEq

/-- Shallow embedding of `askAIAboutNotesAction` (src/unnamed/part_004
lines 439-681) for a logged-in user.  The caller-side collaborators
(auth, the prisma queries fetching the token and the note corpus) are
the `userId`, `notionAccessToken` and `notes` arguments; `st0` is the
database state at run start with `st0.store` listing this user's notes
among the rest. -/
def askAIAboutNotesAction (env : ToolEnv) (complete : CompleteFn)
    (userId : String) (notionAccessToken : Option String) (notes : List Note)
    (newQuestions responses : List String) (currentNoteId : Option String)
    (st0 : DispatchState) : RunResult :=
  if notes == [] then
    { output := .noNotes "You don't have any notes yet."
      iterations := 0, completions := 0, store := st0.store, calls := [] }
  else
    let msgs := initialMessages notes currentNoteId newQuestions responses
    match complete 0 msgs with
    | .error e =>
        { output := .result (errorHtml e) false false
          iterations := 0, completions := 1, store := st0.store, calls := [] }
    | .ok msg0 =>
        match loopGo env complete (some notes) (some userId) notionAccessToken
            maxIterations msg0 (initLoopState msgs st0) with
        | .error (e, stE) =>
            { output := .result (errorHtml e) false false
              iterations := stE.iterations, completions := stE.completions
              store := stE.dispatch.store, calls := stE.calls }
        | .ok (msgF, stF) =>
            let responseText := jsOrStr msgF.content fallbackResponse
            { output := .result responseText stF.noteCreated stF.noteUpdated
              iterations := stF.iterations, completions := stF.completions
              store := stF.dispatch.store, calls := stF.calls }

/-- Arguments as forwarded by the legacy dispatcher
(src/src/actions/notes-mcp.ts): the mutated `args` object, which may have
gained a `notes` property (`analyze_notes`) or had `text` overwritten
(`extract_entities`). -/
structure LegacyArgs where
  base : ToolArgs
  notes : Option (List Note)
deriving Repr, DecidableEq

/-- The legacy in-place argument enrichment (notes-mcp.ts lines 238-246). -/
def legacyEnrich (toolName : String) (args : ToolArgs) (notes : Option (List Note)) :
    LegacyArgs :=
  let attached : Option (List Note) :=
    if toolName == "analyze_notes" && notes.isSome then notes else none
  let base :=
    if toolName == "extract_entities" && !(jsTruthy args.text) && notes.isSome then
      { args with text := some (String.intercalate "\n\n" ((notes.getD []).map (·.text))) }
    else args
  { base := base, notes := attached }

/-- Environment of the legacy dispatcher: the `MCP_SERVER_PATH`
environment variable and the `echo ... | node server` exec round-trip
(command construction, stdout-line scanning and JSON decoding are folded
into the oracle, whose error is any of their throws). -/
structure LegacyEnv where
  mcpServerPath : Option String
  exec : String → LegacyArgs → Except String String

/-- The `error` field of the legacy no-worker stub response. -/
def legacyStubError : String :=
  "MCP server features are only available in local development"

/-- The `message` field of the legacy no-worker stub response. -/
def legacyStubMessage : String :=
  "This feature requires the MCP server which is not available in this environment"

/-- Shallow embedding of the legacy `callMCPTool`
(src/src/actions/notes-mcp.ts lines 154-303).  Unlike the current
version it validates neither note content nor update text, always
inserts the `"\n\n"` separator on append, and — when `MCP_SERVER_PATH`
is unset — returns the stub object instead of spawning the worker. -/
def callMCPToolLegacy (env : LegacyEnv) (toolName : String) (args : ToolArgs)
    (notes : Option (List Note)) (userId : Option String) (st : DispatchState) :
    Except String Payload × DispatchState :=
  if toolName == "create_note" then
    if !(jsTruthy userId) then
      (.error "User ID is required to create a note", st)
    else
      let (newNote, st') := noteCreate st (userId.getD "") (jsStringOpt args.content)
      (.ok (.createSuccess newNote.id), st')
  else if toolName == "update_note" then
    if !(jsTruthy userId) then
      (.error "User ID is required to update a note", st)
    else
      let noteId := jsStringOpt args.noteId
      let mode := jsOrStr args.mode "append"
      match noteFindFirst st.store noteId (userId.getD "") with
      | none =>
          (.error "Failed to update note: Note not found or you don't have permission to update it",
           st)
      | some currentNote =>
          let newText :=
            if mode == "replace" then jsStringOpt args.newContent
            else currentNote.text ++ "\n\n" ++ jsStringOpt args.newContent
          (.ok (.updateSuccess noteId mode),
           { st with store := noteUpdateText st.store noteId newText })
  else
    let fwd := legacyEnrich toolName args notes
    if !(jsTruthy env.mcpServerPath) then
      (.ok (.legacyStub legacyStubError legacyStubMessage), st)
    else
      match env.exec toolName fwd with
      | .ok r => (.ok (.worker r), st)
      | .error e => (.error ("MCP tool " ++ toolName ++ " failed: " ++ e), st)

/-! ## Dispatch-level properties -/

/-- A concrete collaborator environment used by witness instantiations. -/
def witnessEnv : ToolEnv :=
  { workerCall := fun _ _ => .ok "worker-ok", notionCall := fun _ => .ok "notion-ok" }

/-- C2: for an existing note owned by the actor, `update_note` in append
mode with existing text `A` and new content `B` stores exactly
`A ++ "\n\n" ++ B`; appending to a note with empty text stores exactly
`B` with no leading separator; replace mode stores exactly the new
content regardless of the prior text. -/
theorem update_note_append_replace_semantics
    (env : ToolEnv) (st : DispatchState) (uid nid B : String) (note : Note)
    (args : ToolArgs) (notes : Option (List Note)) (tok : Option String)
    (hu : uid ≠ "") (hB : B ≠ "")
    (hnid : args.noteId = some nid) (hBc : args.newContent = some B)
    (hfound : noteFindFirst st.store nid uid = some note) :
    (args.mode = some "append" → note.text ≠ "" →
      callMCPTool env "update_note" args notes (some uid) tok st =
        (.ok (.updateSuccess nid "append"),
         { st with store := noteUpdateText st.store nid (note.text ++ "\n\n" ++ B) }, [])) ∧
    (args.mode = some "append" → note.text = "" →
      callMCPTool env "update_note" args notes (some uid) tok st =
        (.ok (.updateSuccess nid "append"),
         { st with store := noteUpdateText st.store nid B }, [])) ∧
    (args.mode = some "replace" →
      callMCPTool env "update_note" args notes (some uid) tok st =
        (.ok (.updateSuccess nid "replace"),
         { st with store := noteUpdateText st.store nid B }, [])) := by
  refine ⟨fun hmode hne => ?_, fun hmode hemp => ?_, fun hmode => ?_⟩ <;>
    simp [callMCPTool, jsTruthy, jsStringOpt, jsOrStr, updatedNoteText,
      hu, hB, hnid, hBc, hfound, hmode, *]

/-- Witness for C2 at a concrete store. -/
theorem update_note_append_replace_semantics_witness :
    (("u1" : String) ≠ "" ∧ ("B" : String) ≠ "" ∧
      noteFindFirst [⟨"n1", "u1", "A", "t0", "t0"⟩] "n1" "u1" =
        some ⟨"n1", "u1", "A", "t0", "t0"⟩) ∧
    callMCPTool witnessEnv "update_note"
        { noteId := some "n1", newContent := some "B", mode := some "append" }
        none (some "u1") none ⟨[⟨"n1", "u1", "A", "t0", "t0"⟩], 0⟩ =
      (.ok (.updateSuccess "n1" "append"),
       ⟨[⟨"n1", "u1", "A\n\nB", "t0", "t0"⟩], 0⟩, []) := by
  refine ⟨⟨by decide, by decide, by decide⟩, ?_⟩
  have h := (update_note_append_replace_semantics witnessEnv
    ⟨[⟨"n1", "u1", "A", "t0", "t0"⟩], 0⟩ "u1" "n1" "B" ⟨"n1", "u1", "A", "t0", "t0"⟩
    { noteId := some "n1", newContent := some "B", mode := some "append" }
    none none (by decide) (by decide) rfl rfl (by decide)).1 rfl (by decide)
  rw [h]
  rfl

/-- C5: `create_note` with empty or whitespace-only content fails with the
validation error, leaves the store untouched and issues no network call. -/
theorem create_note_empty_content_validation
    (env : ToolEnv) (st : DispatchState) (uid : String) (args : ToolArgs)
    (notes : Option (List Note)) (tok : Option String)
    (hu : uid ≠ "") (hempty : jsTrim (args.content.getD "") = "") :
    callMCPTool env "create_note" args notes (some uid) tok st =
      (.error "Failed to create note: Cannot create a note with empty content", st, []) := by
  simp [callMCPTool, jsTruthy, hu, hempty]

/-- Witness for C5 with whitespace-only content. -/
theorem create_note_empty_content_validation_witness :
    (("u1" : String) ≠ "" ∧ jsTrim ((some "  " : Option String).getD "") = "") ∧
    callMCPTool witnessEnv "create_note" { content := some "  " } none (some "u1") none
        ⟨[], 0⟩ =
      (.error "Failed to create note: Cannot create a note with empty content", ⟨[], 0⟩, []) :=
  ⟨⟨by decide, by decide⟩,
   create_note_empty_content_validation witnessEnv ⟨[], 0⟩ "u1" { content := some "  " }
     none none (by decide) (by decide)⟩

/-- C9: an `update_note` dispatch for a note id that no note of the acting
user carries — absent entirely or owned by another user — fails with the
not-found error and performs no write; the fetch is scoped to both the
note id and the user id (`noteFindFirst` misses). -/
theorem update_note_ownership_scoping
    (env : ToolEnv) (st : DispatchState) (uid nid : String) (args : ToolArgs)
    (notes : Option (List Note)) (tok : Option String)
    (hu : uid ≠ "") (hnc : jsTruthy args.newContent = true)
    (hnid : args.noteId = some nid)
    (habsent : ∀ n ∈ st.store, ¬(n.id = nid ∧ n.authorId = uid)) :
    noteFindFirst st.store nid uid = none ∧
    callMCPTool env "update_note" args notes (some uid) tok st =
      (.error "Failed to update note: Note not found or you don't have permission to update it",
       st, []) := by
  have hnone : noteFindFirst st.store nid uid = none := by
    rw [noteFindFirst, List.find?_eq_none]
    intro n hn
    have := habsent n hn
    simp only [Bool.and_eq_true, beq_iff_eq]
    tauto
  refine ⟨hnone, ?_⟩
  have hnc' : args.newContent.getD "" ≠ "" := by
    simpa [jsTruthy] using hnc
  simp [callMCPTool, jsTruthy, jsStringOpt, hu, hnid, hnone, hnc']

/-- Witness for C9: the note exists but belongs to another user. -/
theorem update_note_ownership_scoping_witness :
    (("u1" : String) ≠ "" ∧
      jsTruthy (some "B") = true ∧
      (∀ n ∈ ([⟨"n1", "other", "A", "t0", "t0"⟩] : Store),
        ¬(n.id = "n1" ∧ n.authorId = "u1"))) ∧
    callMCPTool witnessEnv "update_note"
        { noteId := some "n1", newContent := some "B" }
        none (some "u1") none ⟨[⟨"n1", "other", "A", "t0", "t0"⟩], 0⟩ =
      (.error "Failed to update note: Note not found or you don't have permission to update it",
       ⟨[⟨"n1", "other", "A", "t0", "t0"⟩], 0⟩, []) :=
  ⟨⟨by decide, by decide, by decide⟩,
   (update_note_ownership_scoping witnessEnv ⟨[⟨"n1", "other", "A", "t0", "t0"⟩], 0⟩
     "u1" "n1" { noteId := some "n1", newContent := some "B" } none none
     (by decide) (by decide) rfl (by decide)).2⟩

/-- The names of the five Notion workspace tools. -/
def notionToolNames : List String :=
  ["search_notion", "get_notion_page", "create_notion_page",
   "append_to_notion", "list_notion_databases"]

/-- C6: any workspace tool dispatched without a stored credential fails
deterministically with the not-connected error, touches neither the
store nor the network (empty call log). -/
theorem notion_tools_require_credential
    (env : ToolEnv) (st : DispatchState) (name : String) (args : ToolArgs)
    (notes : Option (List Note)) (userId : Option String) (tok : Option String)
    (hname : name ∈ notionToolNames) (htok : jsTruthy tok = false) :
    callMCPTool env name args notes userId tok st =
      (.error ("MCP tool " ++ name ++
        " failed: Notion is not connected. Please connect your Notion workspace in settings."),
       st, []) := by
  simp only [notionToolNames, List.mem_cons, List.mem_singleton,
    List.not_mem_nil, or_false] at hname
  rcases hname with rfl | rfl | rfl | rfl | rfl <;>
    simp [callMCPTool, mcpServerTools, htok]

/-- Witness for C6: `search_notion` with no credential stored. -/
theorem notion_tools_require_credential_witness :
    (("search_notion" : String) ∈ notionToolNames ∧ jsTruthy none = false) ∧
    callMCPTool witnessEnv "search_notion" {} none (some "u1") none ⟨[], 0⟩ =
      (.error ("MCP tool " ++ "search_notion" ++
        " failed: Notion is not connected. Please connect your Notion workspace in settings."),
       ⟨[], 0⟩, []) :=
  ⟨⟨by decide, by decide⟩,
   notion_tools_require_credential witnessEnv ⟨[], 0⟩ "search_notion" {} none (some "u1") none
     (by decide) (by decide)⟩

/-- C8: before forwarding to the worker, `analyze_notes` always gets the
full note corpus attached regardless of the model's arguments;
`extract_entities` with no (falsy) text gets the concatenated corpus
substituted — and keeps its own text otherwise; the other remote tools'
arguments pass through unchanged. -/
theorem dispatcher_argument_enrichment
    (env : ToolEnv) (st : DispatchState) (args : ToolArgs) (ns : List Note)
    (userId tok : Option String) :
    ((callMCPTool env "analyze_notes" args (some ns) userId tok st).2.2 =
      [.worker "analyze_notes" (.analyzeEnriched (ns.map noteToWire) args.analysisType)]) ∧
    (jsTruthy args.text = false →
      (callMCPTool env "extract_entities" args (some ns) userId tok st).2.2 =
        [.worker "extract_entities"
          (.entityText (String.intercalate "\n\n" (ns.map (·.text))))]) ∧
    (jsTruthy args.text = true →
      (callMCPTool env "extract_entities" args (some ns) userId tok st).2.2 =
        [.worker "extract_entities" (.plain args)]) ∧
    ((callMCPTool env "web_search" args (some ns) userId tok st).2.2 =
      [.worker "web_search" (.plain args)]) ∧
    ((callMCPTool env "get_weather" args (some ns) userId tok st).2.2 =
      [.worker "get_weather" (.plain args)]) := by
  refine ⟨?_, fun htext => ?_, fun htext => ?_, ?_, ?_⟩ <;>
  · simp [callMCPTool, mcpServerTools, enrichArgs, *]
    split <;> rfl

/-- Witness for C8: `extract_entities` with no text supplied. -/
theorem dispatcher_argument_enrichment_witness :
    (jsTruthy (none : Option String) = false) ∧
    (callMCPTool witnessEnv "extract_entities" {}
        (some [⟨"n1", "u1", "A", "t0", "t0"⟩]) (some "u1") none ⟨[], 0⟩).2.2 =
      [.worker "extract_entities" (.entityText "A")] := by
  refine ⟨by decide, ?_⟩
  have h := (dispatcher_argument_enrichment witnessEnv ⟨[], 0⟩ {}
    [⟨"n1", "u1", "A", "t0", "t0"⟩] (some "u1") none).2.1 (by decide)
  rw [h]
  rfl

/-- C7: with no worker configured (`MCP_SERVER_PATH` unset), every
remote-stateless tool call returns the stub response — an ordinary
return carrying the unavailability message — instead of throwing, and
the store is untouched. -/
theorem worker_unconfigured_stub_degradation
    (env : LegacyEnv) (st : DispatchState) (name : String) (args : ToolArgs)
    (notes : Option (List Note)) (userId : Option String)
    (hname : name ∈ mcpServerTools) (hpath : jsTruthy env.mcpServerPath = false) :
    callMCPToolLegacy env name args notes userId st =
      (.ok (.legacyStub legacyStubError legacyStubMessage), st) := by
  simp only [mcpServerTools, List.mem_cons, List.mem_singleton,
    List.not_mem_nil, or_false] at hname
  rcases hname with rfl | rfl | rfl | rfl <;>
    simp [callMCPToolLegacy, hpath]

/-- Witness for C7: `web_search` with the worker unconfigured. -/
theorem worker_unconfigured_stub_degradation_witness :
    (("web_search" : String) ∈ mcpServerTools ∧
      jsTruthy (none : Option String) = false) ∧
    callMCPToolLegacy { mcpServerPath := none, exec := fun _ _ => .error "unreachable" }
        "web_search" {} none (some "u1") ⟨[], 0⟩ =
      (.ok (.legacyStub legacyStubError legacyStubMessage), ⟨[], 0⟩) :=
  ⟨⟨by decide, by decide⟩,
   worker_unconfigured_stub_degradation
     { mcpServerPath := none, exec := fun _ _ => .error "unreachable" }
     ⟨[], 0⟩ "web_search" {} none (some "u1") (by decide) (by decide)⟩

/-! ## Loop-level properties -/

/-- The loop state carried by either outcome of `loopGo`. -/
def loopFinalState : Except (String × LoopState) (AssistantMsg × LoopState) → LoopState
  | .ok (_, s) => s
  | .error (_, s) => s

theorem processOneCall_iterations (env : ToolEnv) (notes : Option (List Note))
    (userId tok : Option String) (st : LoopState) (tc : ToolCall) :
    (processOneCall env notes userId tok st tc).iterations = st.iterations := by
  simp only [processOneCall]
  split <;> rfl

theorem processOneCall_completions (env : ToolEnv) (notes : Option (List Note))
    (userId tok : Option String) (st : LoopState) (tc : ToolCall) :
    (processOneCall env notes userId tok st tc).completions = st.completions := by
  simp only [processOneCall]
  split <;> rfl

theorem processOneCall_noteCreated (env : ToolEnv) (notes : Option (List Note))
    (userId tok : Option String) (st : LoopState) (tc : ToolCall) :
    (processOneCall env notes userId tok st tc).noteCreated =
      (st.noteCreated || tc.name == "create_note") := by
  simp only [processOneCall]
  split <;> rfl

theorem processOneCall_noteUpdated (env : ToolEnv) (notes : Option (List Note))
    (userId tok : Option String) (st : LoopState) (tc : ToolCall) :
    (processOneCall env notes userId tok st tc).noteUpdated =
      (st.noteUpdated || tc.name == "update_note") := by
  simp only [processOneCall]
  split <;> rfl

theorem processToolCalls_iterations (env : ToolEnv) (notes : Option (List Note))
    (userId tok : Option String) (batch : List ToolCall) (st : LoopState) :
    (processToolCalls env notes userId tok batch st).iterations = st.iterations := by
  induction batch generalizing st with
  | nil => rfl
  | cons tc rest ih =>
      rw [processToolCalls, List.foldl_cons, ← processToolCalls, ih,
        processOneCall_iterations]

theorem processToolCalls_completions (env : ToolEnv) (notes : Option (List Note))
    (userId tok : Option String) (batch : List ToolCall) (st : LoopState) :
    (processToolCalls env notes userId tok batch st).completions = st.completions := by
  induction batch generalizing st with
  | nil => rfl
  | cons tc rest ih =>
      rw [processToolCalls, List.foldl_cons, ← processToolCalls, ih,
        processOneCall_completions]

theorem processToolCalls_noteCreated (env : ToolEnv) (notes : Option (List Note))
    (userId tok : Option String) (batch : List ToolCall) (st : LoopState) :
    (processToolCalls env notes userId tok batch st).noteCreated =
      (st.noteCreated || batch.any (fun tc => tc.name == "create_note")) := by
  induction batch generalizing st with
  | nil => simp [processToolCalls]
  | cons tc rest ih =>
      rw [processToolCalls, List.foldl_cons, ← processToolCalls, ih,
        processOneCall_noteCreated]
      simp [Bool.or_assoc]

theorem processToolCalls_noteUpdated (env : ToolEnv) (notes : Option (List Note))
    (userId tok : Option String) (batch : List ToolCall) (st : LoopState) :
    (processToolCalls env notes userId tok batch st).noteUpdated =
      (st.noteUpdated || batch.any (fun tc => tc.name == "update_note")) := by
  induction batch generalizing st with
  | nil => simp [processToolCalls]
  | cons tc rest ih =>
      rw [processToolCalls, List.foldl_cons, ← processToolCalls, ih,
        processOneCall_noteUpdated]
      simp [Bool.or_assoc]

theorem loopGo_iterations_le (env : ToolEnv) (complete : CompleteFn)
    (notes : Option (List Note)) (userId tok : Option String) :
    ∀ (fuel : Nat) (msg : AssistantMsg) (st : LoopState),
      st.iterations ≤ maxIterations →
      (loopFinalState (loopGo env complete notes userId tok fuel msg st)).iterations ≤
        maxIterations := by
  intro fuel
  induction fuel with
  | zero =>
      intro msg st h
      simp only [loopGo]
      split
      · exact h
      · exact h
  | succ f ih =>
      intro msg st h
      simp only [loopGo]
      split
      · rename_i hguard
        have hlt : st.iterations < maxIterations := by
          simp only [Bool.and_eq_true, decide_eq_true_eq] at hguard
          exact hguard.2
        split
        · rename_i e heq
          simp only [loopFinalState, processToolCalls_iterations]
          omega
        · rename_i msg' heq
          apply ih
          simp only [processToolCalls_iterations]
          omega
      · exact h

theorem loopGo_iterations_mono (env : ToolEnv) (complete : CompleteFn)
    (notes : Option (List Note)) (userId tok : Option String) :
    ∀ (fuel : Nat) (msg : AssistantMsg) (st : LoopState),
      st.iterations ≤
        (loopFinalState (loopGo env complete notes userId tok fuel msg st)).iterations := by
  intro fuel
  induction fuel with
  | zero =>
      intro msg st
      simp only [loopGo]
      split
      · exact Nat.le_refl _
      · exact Nat.le_refl _
  | succ f ih =>
      intro msg st
      simp only [loopGo]
      split
      · split
        · rename_i e heq
          simp only [loopFinalState, processToolCalls_iterations]
          omega
        · rename_i msg' heq
          refine Nat.le_trans ?_ (ih msg' _)
          simp only [processToolCalls_iterations]
          omega
      · exact Nat.le_refl _

theorem loopGo_ok_of_complete_ok (env : ToolEnv) (complete : CompleteFn)
    (notes : Option (List Note)) (userId tok : Option String)
    (hok : ∀ k ms, (complete k ms).isOk = true) :
    ∀ (fuel : Nat) (msg : AssistantMsg) (st : LoopState),
      ∃ msgF stF, loopGo env complete notes userId tok fuel msg st = .ok (msgF, stF) := by
  intro fuel
  induction fuel with
  | zero =>
      intro msg st
      simp only [loopGo]
      split
      · exact ⟨msg, st, rfl⟩
      · exact ⟨msg, st, rfl⟩
  | succ f ih =>
      intro msg st
      simp only [loopGo]
      split
      · split
        · rename_i e heq
          exfalso
          have h2 := hok ((processToolCalls env notes userId tok msg.tool_calls { st with iterations := st.iterations + 1, messages := st.messages ++ [Msg.assistantToolCalls msg] }).completions) ((processToolCalls env notes userId tok msg.tool_calls { st with iterations := st.iterations + 1, messages := st.messages ++ [Msg.assistantToolCalls msg] }).messages)
          rw [heq] at h2
          simp [Except.isOk, Except.toBool] at h2
        · rename_i msg' heq
          exact ih msg' _
      · exact ⟨msg, st, rfl⟩

theorem loopGo_error_from_complete (env : ToolEnv) (complete : CompleteFn)
    (notes : Option (List Note)) (userId tok : Option String) :
    ∀ (fuel : Nat) (msg : AssistantMsg) (st : LoopState) (e : String) (stE : LoopState),
      loopGo env complete notes userId tok fuel msg st = .error (e, stE) →
      ∃ k ms, complete k ms = .error e := by
  intro fuel
  induction fuel with
  | zero =>
      intro msg st e stE h
      simp only [loopGo] at h
      split at h <;> exact absurd h (by simp)
  | succ f ih =>
      intro msg st e stE h
      simp only [loopGo] at h
      split at h
      · split at h
        · rename_i e' heq
          simp only [Except.error.injEq, Prod.mk.injEq] at h
          exact ⟨_, _, h.1 ▸ heq⟩
        · rename_i msg' heq
          exact ih msg' _ e stE h
      · exact absurd h (by simp)

/-- C10: with an empty note corpus the action returns the bare early
string — not the `{response, noteCreated, noteUpdated}` envelope — and
invokes neither the completion model (zero completions) nor any tool
(empty call log, untouched store). -/
theorem empty_corpus_early_return (env : ToolEnv) (complete : CompleteFn)
    (uid : String) (tok : Option String) (notes : List Note)
    (qs rs : List String) (cid : Option String) (st0 : DispatchState)
    (h : notes = []) :
    askAIAboutNotesAction env complete uid tok notes qs rs cid st0 =
      { output := .noNotes "You don't have any notes yet."
        iterations := 0, completions := 0, store := st0.store, calls := [] } := by
  subst h
  simp [askAIAboutNotesAction]

/-- Witness for C10 at a concrete empty corpus. -/
theorem empty_corpus_early_return_witness :
    (([] : List Note) = []) ∧
    askAIAboutNotesAction witnessEnv (fun _ _ => .error "never") "u1" none [] [] [] none
        ⟨[], 0⟩ =
      { output := .noNotes "You don't have any notes yet."
        iterations := 0, completions := 0, store := [], calls := [] } :=
  ⟨rfl, empty_corpus_early_return witnessEnv (fun _ _ => .error "never") "u1" none [] [] []
    none ⟨[], 0⟩ rfl⟩

/-- C3: the iteration counter of a run never exceeds the configured
maximum of 3, only ever increases, and when the completion collaborator
never throws the run — including one cut short by the cap — ends through
the normal return path, with the last assistant text (or the fixed
fallback) as the response. -/
theorem iteration_cap_and_normal_termination (env : ToolEnv) (complete : CompleteFn)
    (uid : String) (tok : Option String) (notes : List Note)
    (qs rs : List String) (cid : Option String) (st0 : DispatchState) :
    (askAIAboutNotesAction env complete uid tok notes qs rs cid st0).iterations ≤
      maxIterations ∧
    (∀ fuel msg st, st.iterations ≤
      (loopFinalState (loopGo env complete (some notes) (some uid) tok fuel msg st)).iterations) ∧
    ((∀ k ms, (complete k ms).isOk = true) → notes ≠ [] →
      ∃ msg0 msgF stF,
        complete 0 (initialMessages notes cid qs rs) = .ok msg0 ∧
        loopGo env complete (some notes) (some uid) tok maxIterations msg0
          (initLoopState (initialMessages notes cid qs rs) st0) = .ok (msgF, stF) ∧
        askAIAboutNotesAction env complete uid tok notes qs rs cid st0 =
          { output := .result (jsOrStr msgF.content fallbackResponse)
              stF.noteCreated stF.noteUpdated
            iterations := stF.iterations, completions := stF.completions
            store := stF.dispatch.store, calls := stF.calls }) := by
  refine ⟨?_, loopGo_iterations_mono env complete (some notes) (some uid) tok,
    fun hok hne => ?_⟩
  · by_cases hn : notes = []
    · simp [askAIAboutNotesAction, hn, maxIterations]
    · rcases h0 : complete 0 (initialMessages notes cid qs rs) with e | msg0
      · simp [askAIAboutNotesAction, hn, h0, maxIterations]
      · have hb := loopGo_iterations_le env complete (some notes) (some uid) tok
          maxIterations msg0 (initLoopState (initialMessages notes cid qs rs) st0)
          (by simp [initLoopState])
        rcases hres : loopGo env complete (some notes) (some uid) tok maxIterations msg0
            (initLoopState (initialMessages notes cid qs rs) st0) with ⟨e, stE⟩ | ⟨msgF, stF⟩
        · rw [hres] at hb
          simp only [loopFinalState] at hb
          simpa [askAIAboutNotesAction, hn, h0, hres] using hb
        · rw [hres] at hb
          simp only [loopFinalState] at hb
          simpa [askAIAboutNotesAction, hn, h0, hres] using hb
  · rcases hc0 : complete 0 (initialMessages notes cid qs rs) with e | msg0
    · exfalso
      have h2 := hok 0 (initialMessages notes cid qs rs)
      rw [hc0] at h2
      simp [Except.isOk, Except.toBool] at h2
    · obtain ⟨msgF, stF, hloop⟩ := loopGo_ok_of_complete_ok env complete (some notes)
        (some uid) tok hok maxIterations msg0 (initLoopState (initialMessages notes cid qs rs) st0)
      exact ⟨msg0, msgF, stF, rfl, hloop, by
        simp [askAIAboutNotesAction, hne, hc0, hloop]⟩

/-- The assistant message of a model that always requests another
`web_search` batch. -/
def capBatchMsg : AssistantMsg :=
  { content := none, tool_calls := [{ id := "c", name := "web_search", args := {} }] }

/-- A completion collaborator that never stops requesting tool calls. -/
def capComplete : CompleteFn := fun _ _ => .ok capBatchMsg

/-- Witness for C3: a model that always requests another `web_search`
batch is cut off by the cap, and the final iteration count respects the
bound. -/
theorem iteration_cap_and_normal_termination_witness :
    (∀ k ms, (capComplete k ms).isOk = true) ∧
    (askAIAboutNotesAction witnessEnv capComplete "u1" none
      [⟨"n1", "u1", "A", "t0", "t0"⟩] ["q"] [] none
      ⟨[⟨"n1", "u1", "A", "t0", "t0"⟩], 0⟩).iterations ≤ maxIterations :=
  ⟨fun _ _ => rfl,
   (iteration_cap_and_normal_termination witnessEnv capComplete "u1" none
     [⟨"n1", "u1", "A", "t0", "t0"⟩] ["q"] [] none
     ⟨[⟨"n1", "u1", "A", "t0", "t0"⟩], 0⟩).1⟩

/-- C4: an exception thrown by a tool handler is caught at the dispatch
boundary and appended as a failure tool result while the batch — and the
run — continues; the loop can only abort through a failing completion
call, and such an abort returns the fixed HTML error fragment with both
side-effect flags false (at the initial completion and inside the
loop alike). -/
theorem tool_failure_contained_model_failure_aborts (env : ToolEnv)
    (complete : CompleteFn) (uid : String) (tok : Option String) (notes : List Note)
    (qs rs : List String) (cid : Option String) (st0 : DispatchState) :
    (∀ (st : LoopState) (tc : ToolCall) (e : String),
      (callMCPTool env tc.name tc.args (some notes) (some uid) tok st.dispatch).1 = .error e →
      (processOneCall env (some notes) (some uid) tok st tc).messages =
        st.messages ++ [.tool tc.id (.failure e)]) ∧
    (∀ (st : LoopState) (tc : ToolCall) (rest : List ToolCall),
      processToolCalls env (some notes) (some uid) tok (tc :: rest) st =
        processToolCalls env (some notes) (some uid) tok rest
          (processOneCall env (some notes) (some uid) tok st tc)) ∧
    (∀ (fuel : Nat) (msg : AssistantMsg) (st : LoopState) (e : String) (stE : LoopState),
      loopGo env complete (some notes) (some uid) tok fuel msg st = .error (e, stE) →
      ∃ k ms, complete k ms = .error e) ∧
    (∀ e, notes ≠ [] → complete 0 (initialMessages notes cid qs rs) = .error e →
      (askAIAboutNotesAction env complete uid tok notes qs rs cid st0).output =
        .result (errorHtml e) false false) ∧
    (∀ (msg0 : AssistantMsg) (e : String) (stE : LoopState), notes ≠ [] →
      complete 0 (initialMessages notes cid qs rs) = .ok msg0 →
      loopGo env complete (some notes) (some uid) tok maxIterations msg0
        (initLoopState (initialMessages notes cid qs rs) st0) = .error (e, stE) →
      (askAIAboutNotesAction env complete uid tok notes qs rs cid st0).output =
        .result (errorHtml e) false false) := by
  refine ⟨fun st tc e h => ?_,
    fun st tc rest => rfl,
    loopGo_error_from_complete env complete (some notes) (some uid) tok,
    fun e hne herr => ?_,
    fun msg0 e stE hne h0 hloop => ?_⟩
  · rcases hc : callMCPTool env tc.name tc.args (some notes) (some uid) tok st.dispatch
      with ⟨res, d, log⟩
    rw [hc] at h
    simp only at h
    subst h
    simp [processOneCall, hc]
  · simp [askAIAboutNotesAction, hne, herr]
  · simp [askAIAboutNotesAction, hne, h0, hloop]

/-- A completion collaborator whose very first call throws. -/
def abortComplete : CompleteFn := fun _ _ => .error "model down"

/-- Witness for C4: the completion failure aborts the run with the HTML
error fragment and both flags false. -/
theorem tool_failure_contained_model_failure_aborts_witness :
    (([⟨"n1", "u1", "A", "t0", "t0"⟩] : List Note) ≠ [] ∧
      abortComplete 0 (initialMessages [⟨"n1", "u1", "A", "t0", "t0"⟩] none ["q"] []) =
        .error "model down") ∧
    (askAIAboutNotesAction witnessEnv abortComplete "u1" none
      [⟨"n1", "u1", "A", "t0", "t0"⟩] ["q"] [] none
      ⟨[⟨"n1", "u1", "A", "t0", "t0"⟩], 0⟩).output =
      .result (errorHtml "model down") false false :=
  ⟨⟨by decide, rfl⟩,
   (tool_failure_contained_model_failure_aborts witnessEnv abortComplete "u1" none
     [⟨"n1", "u1", "A", "t0", "t0"⟩] ["q"] [] none
     ⟨[⟨"n1", "u1", "A", "t0", "t0"⟩], 0⟩).2.2.2.1 "model down" (by decide) rfl⟩

/-- The note corpus and completion script of the C1 counterexample: the
model first requests `create_note` with whitespace-only content (whose
dispatch throws the validation error), then returns plain text. -/
def cexNote : Note := ⟨"n1", "u1", "hello", "t0", "t0"⟩

def cexComplete : CompleteFn := fun n _ =>
  if n == 0 then
    .ok { content := none,
          tool_calls := [{ id := "call-1", name := "create_note", args := { content := some " " } }] }
  else
    .ok { content := some "done", tool_calls := [] }

/-- C1 counterexample: in this run the only `create_note` dispatch throws
(whitespace-only content) and creates nothing — the store is unchanged —
yet the run reports `noteCreated = true`, because the flag is set when
the tool call is named, before the dispatch is attempted.  This refutes
"a dispatch attempt that fails never sets its flag". -/
theorem flag_set_on_failed_create_dispatch :
    (askAIAboutNotesAction witnessEnv cexComplete "u1" none [cexNote] ["q"] [] none
      ⟨[cexNote], 0⟩).output = .result "done" true false ∧
    (askAIAboutNotesAction witnessEnv cexComplete "u1" none [cexNote] ["q"] [] none
      ⟨[cexNote], 0⟩).store = [cexNote] :=
  ⟨rfl, rfl⟩

/-- C1 as amended: the flags start false at run start and are set — and
never reset — exactly when a tool call of the corresponding name is
dispatched (at attempt time), whether or not the dispatch succeeds. -/
theorem sideEffectFlags_attempt_time (env : ToolEnv) (notes : Option (List Note))
    (userId tok : Option String) (msgs : List Msg) (st0 : DispatchState)
    (batch : List ToolCall) (st : LoopState) :
    ((initLoopState msgs st0).noteCreated = false ∧
      (initLoopState msgs st0).noteUpdated = false) ∧
    ((processToolCalls env notes userId tok batch st).noteCreated =
      (st.noteCreated || batch.any (fun tc => tc.name == "create_note")) ∧
     (processToolCalls env notes userId tok batch st).noteUpdated =
      (st.noteUpdated || batch.any (fun tc => tc.name == "update_note"))) :=
  ⟨⟨rfl, rfl⟩,
   processToolCalls_noteCreated env notes userId tok batch st,
   processToolCalls_noteUpdated env notes userId tok batch st⟩
